import Mathlib

/-!
Verification development for the sprite-extend-matter renderer
(`src/render.js`), a spritejs-based renderer for matter-js worlds.

JavaScript numbers are modelled as an extended-rational type `EFloat`
(rationals plus `inf`, `ninf` and `nan`, with IEEE-754 special-value
propagation for the operations the code uses), or as plain rationals `Rat`
where the traced code never produces a special value.  Angles are measured
as rational multiples of pi: a part whose `angle` field is `c * pi` is
modelled by the rational `c`, so the expression
`180 * angle * 10 / Math.PI` of the source is exactly `1800 * c`.
Scene-graph nodes are values carrying a numeric identity so that reuse of
a cached node versus allocation of a fresh one is observable.
-/

/-- JavaScript double values as used by `Render.lookAt`: an exact rational,
positive or negative infinity, or NaN.  Rounding of finite doubles is not
modelled; the claims under study only exercise exact values. -/
inductive EFloat where
  | nan : EFloat
  | inf : EFloat
  | ninf : EFloat
  | fin : Rat → EFloat
deriving DecidableEq, Repr

namespace EFloat

/-- IEEE-style addition: NaN absorbs, infinities of opposite sign give NaN. -/
def add : EFloat → EFloat → EFloat
  | nan, _ => nan
  | _, nan => nan
  | inf, ninf => nan
  | ninf, inf => nan
  | inf, _ => inf
  | ninf, _ => ninf
  | fin _, inf => inf
  | fin _, ninf => ninf
  | fin a, fin b => fin (a + b)

/-- IEEE-style negation. -/
def neg : EFloat → EFloat
  | nan => nan
  | inf => ninf
  | ninf => inf
  | fin q => fin (-q)

/-- `a - b` is `a + (-b)`, exactly as for IEEE doubles. -/
def sub (a b : EFloat) : EFloat := add a (neg b)

/-- IEEE-style multiplication: NaN absorbs, `infinity * 0` is NaN. -/
def mul : EFloat → EFloat → EFloat
  | nan, _ => nan
  | _, nan => nan
  | inf, inf => inf
  | inf, ninf => ninf
  | ninf, inf => ninf
  | ninf, ninf => inf
  | inf, fin q => if q = 0 then nan else if 0 < q then inf else ninf
  | ninf, fin q => if q = 0 then nan else if 0 < q then ninf else inf
  | fin q, inf => if q = 0 then nan else if 0 < q then inf else ninf
  | fin q, ninf => if q = 0 then nan else if 0 < q then ninf else inf
  | fin a, fin b => fin (a * b)

/-- IEEE-style division (the divisor `0` is `+0`: `-0` never arises in the
traced code).  `infinity / infinity` and `0 / 0` are NaN. -/
def div : EFloat → EFloat → EFloat
  | nan, _ => nan
  | _, nan => nan
  | inf, inf => nan
  | inf, ninf => nan
  | ninf, inf => nan
  | ninf, ninf => nan
  | inf, fin q => if 0 ≤ q then inf else ninf
  | ninf, fin q => if 0 ≤ q then ninf else inf
  | fin _, inf => fin 0
  | fin _, ninf => fin 0
  | fin a, fin b =>
    if b = 0 then (if a = 0 then nan else if 0 < a then inf else ninf)
    else fin (a / b)

/-- The strict comparison `a < b` of JavaScript: any comparison with NaN
is false. -/
def lt : EFloat → EFloat → Bool
  | nan, _ => false
  | _, nan => false
  | ninf, ninf => false
  | ninf, _ => true
  | inf, _ => false
  | fin _, inf => true
  | fin _, ninf => false
  | fin a, fin b => decide (a < b)

/-- The comparison `a >= b` of JavaScript: any comparison with NaN is
false. -/
def ge : EFloat → EFloat → Bool
  | nan, _ => false
  | _, nan => false
  | inf, _ => true
  | ninf, ninf => true
  | ninf, _ => false
  | fin _, ninf => true
  | fin _, inf => false
  | fin a, fin b => decide (b ≤ a)

/-- A value that is an infinity or NaN. -/
def nonFinite : EFloat → Bool
  | fin _ => false
  | _ => true

end EFloat

/-- A point-like JavaScript value: its `x` and `y` fields may each be
absent (`undefined`). -/
structure JVec where
  x : Option EFloat
  y : Option EFloat
deriving DecidableEq, Repr

/-- A `{min, max}` bounds record as found on a physics body. -/
structure JBounds where
  min : JVec
  max : JVec
deriving DecidableEq, Repr

/-- An argument of `Render.lookAt` (render.js lines 128-155): an object that
may expose `bounds`, `min`/`max`, `position`, or raw `x`/`y` fields.  A
field that the object lacks is `none`. -/
structure LookObj where
  bounds : Option JBounds
  min : Option JVec
  max : Option JVec
  position : Option JVec
  x : Option EFloat
  y : Option EFloat
deriving DecidableEq, Repr

/-- Line 143 of render.js:
`min = object.bounds ? object.bounds.min : (object.min || object.position || object)`.
The object itself is always truthy, so the final fallback is the object
viewed as a point. -/
def resolveMin (o : LookObj) : JVec :=
  match o.bounds with
  | some b => b.min
  | none =>
    match o.min with
    | some v => v
    | none =>
      match o.position with
      | some v => v
      | none => ⟨o.x, o.y⟩

/-- Line 144 of render.js, the `max` analogue of `resolveMin`. -/
def resolveMax (o : LookObj) : JVec :=
  match o.bounds with
  | some b => b.max
  | none =>
    match o.max with
    | some v => v
    | none =>
      match o.position with
      | some v => v
      | none => ⟨o.x, o.y⟩

/-- `if (min.x < bounds.min.x) bounds.min.x = min.x` (line 147): an absent
coordinate compares as NaN, so it never updates the accumulator. -/
def updMin (acc : EFloat) (v : Option EFloat) : EFloat :=
  match v with
  | none => acc
  | some u => if EFloat.lt u acc then u else acc

/-- `if (max.x > bounds.max.x) bounds.max.x = max.x` (line 149). -/
def updMax (acc : EFloat) (v : Option EFloat) : EFloat :=
  match v with
  | none => acc
  | some u => if EFloat.lt acc u then u else acc

/-- Accumulator bounds with all four coordinates present. -/
structure UBounds where
  minX : EFloat
  minY : EFloat
  maxX : EFloat
  maxY : EFloat
deriving DecidableEq, Repr

/-- One step of the union-bounds loop of `Render.lookAt`
(render.js lines 141-155). -/
def accObj (acc : UBounds) (o : LookObj) : UBounds :=
  let m := resolveMin o
  let M := resolveMax o
  { minX := updMin acc.minX m.x
    minY := updMin acc.minY m.y
    maxX := updMax acc.maxX M.x
    maxY := updMax acc.maxY M.y }

/-- The starting accumulator of the union-bounds loop (lines 137-140):
`min` at `(Infinity, Infinity)`, `max` at `(-Infinity, -Infinity)`. -/
def lookAtInit : UBounds := ⟨.inf, .inf, .ninf, .ninf⟩

/-- The state `Render.lookAt` reads and writes: the canvas dimensions, the
view bounds and the `hasBounds` option.  The mouse recalibration of lines
198-205 is out of the model. -/
structure LookRender where
  canvasW : Rat
  canvasH : Rat
  boundsMinX : EFloat
  boundsMinY : EFloat
  boundsMaxX : EFloat
  boundsMaxY : EFloat
  hasBounds : Bool
deriving DecidableEq, Repr

/-- Lines 157-195 of render.js: from the union bounds, compute the aspect
ratios, the scale factors, write the scaled bounds, re-center them when
`center` is set and subtract the padding.  The padding argument is the
already-defaulted `{x, y}` vector of line 131. -/
def lookAtCore (r : LookRender) (ub : UBounds) (padX padY : EFloat)
    (center : Bool) : LookRender :=
  let width := EFloat.add (EFloat.sub ub.maxX ub.minX) (EFloat.mul (.fin 2) padX)
  let height := EFloat.add (EFloat.sub ub.maxY ub.minY) (EFloat.mul (.fin 2) padY)
  let viewHeight := EFloat.fin r.canvasH
  let viewWidth := EFloat.fin r.canvasW
  let outerR := EFloat.div viewWidth viewHeight
  let innerR := EFloat.div width height
  let cond := EFloat.lt outerR innerR
  let scaleX := if cond then EFloat.fin 1 else EFloat.div outerR innerR
  let scaleY := if cond then EFloat.div innerR outerR else EFloat.fin 1
  let minX0 := ub.minX
  let maxX0 := EFloat.add ub.minX (EFloat.mul width scaleX)
  let minY0 := ub.minY
  let maxY0 := EFloat.add ub.minY (EFloat.mul height scaleY)
  let half := EFloat.fin (1 / 2)
  let dx := EFloat.sub (EFloat.mul width half) (EFloat.mul (EFloat.mul width scaleX) half)
  let dy := EFloat.sub (EFloat.mul height half) (EFloat.mul (EFloat.mul height scaleY) half)
  let minX1 := if center then EFloat.add minX0 dx else minX0
  let maxX1 := if center then EFloat.add maxX0 dx else maxX0
  let minY1 := if center then EFloat.add minY0 dy else minY0
  let maxY1 := if center then EFloat.add maxY0 dy else maxY0
  { r with
    hasBounds := true
    boundsMinX := EFloat.sub minX1 padX
    boundsMaxX := EFloat.sub maxX1 padX
    boundsMinY := EFloat.sub minY1 padY
    boundsMaxY := EFloat.sub maxY1 padY }

/-- `Render.lookAt` (render.js lines 128-206), with the objects list already
an array and the padding/center defaults resolved by the caller. -/
def Render.lookAt (r : LookRender) (objects : List LookObj) (padX padY : EFloat)
    (center : Bool) : LookRender :=
  lookAtCore r (objects.foldl accObj lookAtInit) padX padY center

/-- `Math.round(x * 10) / 10` (render.js lines 568-570): JavaScript
`Math.round` is round-half-up, which is exactly the `round` of Mathlib. -/
def quant1 (x : Rat) : Rat := (round (x * 10) : ℤ) / 10

/-- `Math.round(180 * angle * 10 / Math.PI) / 10` (line 571) for an angle
equal to `c * pi`: the argument of the rounding is exactly `1800 * c`. -/
def rotQuant (c : Rat) : Rat := (round (1800 * c) : ℤ) / 10

/-- JavaScript truthiness of a numeric field: absent (`undefined`) and `0`
are falsy. -/
def jsTruthyNum (o : Option Rat) : Bool :=
  match o with
  | none => false
  | some q => q != 0

/-- JavaScript truthiness of a string field: absent and the empty string
are falsy. -/
def jsTruthyStr (o : Option String) : Bool :=
  match o with
  | none => false
  | some s => s != ""

/-- A vertex of a part: coordinates plus the `isInternal` flag used by the
wireframe path filter. -/
structure Vertex where
  x : Rat
  y : Rat
  internal : Bool
deriving DecidableEq, Repr

/-- The `attrs` object of a sprite descriptor (`part.render.sprite.attrs`),
applied wholesale to the node each frame.  The model records the texture
source and size it may carry; pose and opacity keys are not modelled. -/
structure SpriteAttrs where
  textures : Option String
  size : Option (Rat × Rat)
deriving DecidableEq, Repr

/-- `part.render.sprite`: a texture reference, optional raw attrs, and the
anchor/scale numbers read at node creation. -/
structure SpriteDesc where
  texture : Option String
  attrs : Option SpriteAttrs
  xOffset : Rat
  yOffset : Rat
  xScale : Rat
  yScale : Rat
deriving DecidableEq, Repr

/-- `part.render`: visibility, the optional sprite descriptor and the fill
style. -/
structure PartRender where
  visible : Bool
  sprite : Option SpriteDesc
  fillStyle : String
deriving DecidableEq, Repr

/-- The geometry a created node carries, one constructor per creation
branch of `Render.bodies` / `Render.bodyWireframes`.  A path string
`M x0,y0 L x1,y1 ... z` is modelled as its list of points. -/
inductive Shape where
  | sprite (anchor : Rat × Rat) (scaleV : Rat × Rat) (textures : List String)
  | circle (size : Rat × Rat) (borderRadius : Rat) (bgcolor : String)
  | path (d : List (Rat × Rat)) (fillColor : String)
  | wirePath (d : List (Rat × Rat)) (strokeColor : String)
deriving DecidableEq, Repr

/-- A retained scene-graph node.  `id` is the allocation identity: a fresh
node gets a fresh id, an attribute update keeps the id. -/
structure SNode where
  id : Nat
  shape : Shape
  pos : Rat × Rat
  rotate : Rat
  opacity : Rat
  appliedAttrs : Option SpriteAttrs
deriving DecidableEq, Repr

/-- A body part as `Render.bodies` reads it.  `angleC` is the angle as a
rational multiple of pi.  `spriteNode` is the cached node, `fullOpacity`
the remembered pre-fade opacity of the sleeping fade. -/
structure BodyPart where
  position : Rat × Rat
  angleC : Rat
  render : PartRender
  circleRadius : Option Rat
  vertices : List Vertex
  spriteNode : Option SNode
  fullOpacity : Option Rat
deriving DecidableEq, Repr

/-- The path points of the full-render polygon branch (lines 617-626):
every vertex in order. -/
def pathOf (vs : List Vertex) : List (Rat × Rat) :=
  vs.map (fun v => (v.x, v.y))

/-- The texture test of the sprite branch (line 583):
`part.render.sprite && (sprite.texture || sprite.attrs && sprite.attrs.textures)`. -/
def spriteBranchCond (r : PartRender) : Bool :=
  match r.sprite with
  | none => false
  | some sp =>
    jsTruthyStr sp.texture ||
      (match sp.attrs with
       | none => false
       | some a => a.textures.isSome)

/-- Line 639-641: `if (part.render.sprite && part.render.sprite.attrs)
s.attr(part.render.sprite.attrs)`. -/
def applyRenderAttrs (r : PartRender) (s : SNode) : SNode :=
  match r.sprite with
  | some sp =>
    match sp.attrs with
    | some a => { s with appliedAttrs := some a }
    | none => s
  | none => s

/-- The sleeping fade block (render.js lines 642-651, repeated at lines
723-732): when sleeping is shown and the body is asleep, halve the opacity
once and remember the prior value in `fullOpacity`; otherwise restore a
remembered value.  The truthiness tests are the JavaScript ones, so a
remembered `0` counts as absent. -/
def sleepingUpdate (showSleeping isSleeping : Bool) (fullOpacity : Option Rat)
    (s : SNode) : Option Rat × SNode :=
  if showSleeping && isSleeping then
    if jsTruthyNum fullOpacity then (fullOpacity, s)
    else (some s.opacity, { s with opacity := 1 / 2 * s.opacity })
  else
    if jsTruthyNum fullOpacity then
      (none, { s with opacity := fullOpacity.getD 0 })
    else (fullOpacity, s)

/-- The body of the per-part loop of `Render.bodies` (render.js lines
564-652).  Returns the updated part, the list of nodes appended to the
layer this step, and the next fresh node id; `none` models a thrown
TypeError (reading `vertices[0]` of an empty vertex list).  A part with a
cached `spriteNode` only gets its `pos` and `rotate` attributes written
(lines 577-582); otherwise one node is created by the sprite, circle or
polygon branch and appended. -/
def Render.bodiesPart (showSleeping isSleeping : Bool) (part : BodyPart)
    (fresh : Nat) : Option (BodyPart × List SNode × Nat) :=
  if !part.render.visible then some (part, [], fresh)
  else
    let pos := (quant1 part.position.1, quant1 part.position.2)
    let rot := rotQuant part.angleC
    match part.spriteNode with
    | some s0 =>
      let s1 := { s0 with pos := pos, rotate := rot }
      let s2 := applyRenderAttrs part.render s1
      let fs := sleepingUpdate showSleeping isSleeping part.fullOpacity s2
      some ({ part with spriteNode := some fs.2, fullOpacity := fs.1 }, [], fresh)
    | none =>
      let created : Option SNode :=
        if spriteBranchCond part.render then
          match part.render.sprite with
          | some sp =>
            some { id := fresh
                   shape := .sprite (sp.xOffset, sp.yOffset) (sp.xScale, sp.yScale)
                     (match sp.texture with
                      | some t => if t != "" then [t] else []
                      | none => [])
                   pos := pos, rotate := rot, opacity := 1, appliedAttrs := none }
          | none => none
        else if jsTruthyNum part.circleRadius then
          let r := part.circleRadius.getD 0
          some { id := fresh
                 shape := .circle (2 * r, 2 * r) r part.render.fillStyle
                 pos := pos, rotate := rot, opacity := 1, appliedAttrs := none }
        else
          match part.vertices with
          | [] => none
          | _ :: _ =>
            some { id := fresh
                   shape := .path (pathOf part.vertices) part.render.fillStyle
                   pos := pos, rotate := rot, opacity := 1, appliedAttrs := none }
      match created with
      | none => none
      | some s1 =>
        let s2 := applyRenderAttrs part.render s1
        let fs := sleepingUpdate showSleeping isSleeping part.fullOpacity s2
        some ({ part with spriteNode := some fs.2, fullOpacity := fs.1 },
              [fs.2], fresh + 1)

/-- The body of the per-part loop of `Render.bodyWireframes` (render.js
lines 682-733).  There is no per-part visibility test and no sprite or
circle branch; the path starts at the unfiltered first vertex and then
walks the internal-edge-filtered tail (lines 698-711). -/
def Render.bodyWireframesPart (showInternalEdges showSleeping isSleeping : Bool)
    (part : BodyPart) (fresh : Nat) : Option (BodyPart × List SNode × Nat) :=
  let pos := (quant1 part.position.1, quant1 part.position.2)
  let rot := rotQuant part.angleC
  match part.spriteNode with
  | some s0 =>
    let s1 := { s0 with pos := pos, rotate := rot }
    let fs := sleepingUpdate showSleeping isSleeping part.fullOpacity s1
    some ({ part with spriteNode := some fs.2, fullOpacity := fs.1 }, [], fresh)
  | none =>
    match part.vertices with
    | [] => none
    | v0 :: _ =>
      let vs := if showInternalEdges then part.vertices
                else part.vertices.filter (fun v => !v.internal)
      let d := (v0.x, v0.y) :: (vs.drop 1).map (fun v => (v.x, v.y))
      let s1 : SNode :=
        { id := fresh, shape := .wirePath d ("#bbb")
          pos := pos, rotate := rot, opacity := 1, appliedAttrs := none }
      let fs := sleepingUpdate showSleeping isSleeping part.fullOpacity s1
      some ({ part with spriteNode := some fs.2, fullOpacity := fs.1 },
            [fs.2], fresh + 1)

/-- `Common.clamp(value, min, max)` of matter-js: clip the value to the
closed interval. -/
def Common.clamp (value lo hi : Rat) : Rat :=
  if value < lo then lo else if value > hi then hi else value

/-- The coil count of the spring branch (render.js line 464):
`Math.ceil(Common.clamp(constraint.length / 5, 12, 20))`. -/
def springCoils (length : Rat) : Int :=
  ⌈Common.clamp (length / 5) 12 20⌉

/-- The alternating coil sign (line 467): `j % 2 === 0 ? 1 : -1`. -/
def springOffset (j : Nat) : Rat :=
  if j % 2 == 0 then 1 else -1

/-- The `lineTo` targets of the spring branch plus the final
`lineTo(end)` (render.js lines 461-476).  `delta` is `end - start` and
`normal` is the unit perpendicular of `delta`; computing `normal` needs a
square root, so it is a parameter here.  For `j` from `1` to `coils - 1`
the target is `start + delta * (j / coils) + normal * (offset * 4)`. -/
def springLineTos (startP endP normal : Rat × Rat) (length : Rat) :
    List (Rat × Rat) :=
  let delta := (endP.1 - startP.1, endP.2 - startP.2)
  let coils := springCoils length
  let pt := fun (j : Nat) =>
    (startP.1 + delta.1 * (j / (coils : Rat)) + normal.1 * (springOffset j * 4),
     startP.2 + delta.2 * (j / (coils : Rat)) + normal.2 * (springOffset j * 4))
  (List.range' 1 (coils.toNat - 1)).map pt ++ [endP]

/-- The skip test of `Render.constraints` (render.js line 433):
`!constraint.render.visible || !constraint.pointA || !constraint.pointB`.
An anchor point is an object, truthy exactly when present. -/
def Render.constraintsSkips (visible : Bool) (pointA pointB : Option (Rat × Rat)) :
    Bool :=
  !visible || pointA.isNone || pointB.isNone

/-- The fields of the render/layer pair that drive the deferred overlay
callback: whether `render.extraDraw` is set, and how many callbacks are
registered on the layer update signal. -/
structure LoopState where
  pending : Bool
  registered : Nat
deriving DecidableEq, Repr

/-- Observable events of a frame or of the deferred callback, in execution
order. -/
inductive REv where
  | beforeRender
  | onUpdate
  | offUpdate
  | clearExtraDraw
  | afterRender
deriving DecidableEq, Repr

/-- The overlay-scheduling part of `Render.world` (render.js lines 314-352):
if `render.extraDraw` is unset, build the callback, register it on the
layer update signal and store it; otherwise do nothing. -/
def Render.worldSchedule (st : LoopState) : LoopState × List REv :=
  if st.pending then (st, [.beforeRender])
  else ({ pending := true, registered := st.registered + 1 },
        [.beforeRender, .onUpdate])

/-- The layer firing its update signal: a pending `extraDraw` callback
runs its tail (lines 344-347) — `layer.off('update', extraDraw)`, then
`delete render.extraDraw`, then `Events.trigger(render, 'afterRender')` —
and with no pending callback nothing runs. -/
def layerUpdateFire (st : LoopState) : LoopState × List REv :=
  if st.pending then
    ({ pending := false, registered := st.registered - 1 },
     [.offUpdate, .clearExtraDraw, .afterRender])
  else (st, [])

/-- An interleaving of frames and layer update signals. -/
inductive LoopOp where
  | frame
  | update
deriving DecidableEq, Repr

/-- Run a sequence of frames and update signals. -/
def runLoop : LoopState → List LoopOp → LoopState
  | st, [] => st
  | st, .frame :: ops => runLoop (Render.worldSchedule st).1 ops
  | st, .update :: ops => runLoop (layerUpdateFire st).1 ops

/-- The state before any frame: no pending callback, nothing registered. -/
def loopStart : LoopState := ⟨false, 0⟩

/-- The outcome of one overlay renderer: it returns, or it throws. -/
inductive OverlayRun where
  | ok
  | fault
deriving DecidableEq, Repr

/-- What the deferred `extraDraw` callback did: how many overlay renderers
completed, whether the view transform was reverted, whether the callback
deregistered itself and cleared `render.extraDraw`, and whether
`afterRender` was emitted. -/
structure PassOutcome where
  overlaysCompleted : Nat
  reverted : Bool
  deregistered : Bool
  afterRender : Bool
deriving DecidableEq, Repr

/-- The deferred overlay callback of `Render.world` (render.js lines
315-348) run over the sequence of enabled overlay renderers in source
order.  The body has no exception handling, so a throwing overlay
propagates: the remaining overlays, the `endViewTransform` (guarded by
`hasBounds`), the deregistration and the `afterRender` event all do not
run. -/
def Render.extraDrawPass (hasBounds : Bool) : List OverlayRun → PassOutcome
  | [] => { overlaysCompleted := 0, reverted := hasBounds,
            deregistered := true, afterRender := true }
  | .ok :: rest =>
    let o := Render.extraDrawPass hasBounds rest
    { o with overlaysCompleted := o.overlaysCompleted + 1 }
  | .fault :: _ =>
    { overlaysCompleted := 0, reverted := false,
      deregistered := false, afterRender := false }

/-- The canvas of a spritejs layer. -/
structure Canvas where
  width : Rat
  height : Rat
deriving DecidableEq, Repr

/-- A spritejs layer, the drawing target of the renderer. -/
structure Layer where
  canvas : Canvas
deriving DecidableEq, Repr

/-- The engine handle: `Render.create` never inspects it, `Render.world`
reads `engine.world` and `engine.timing` from it. -/
structure Engine where
  timestamp : Rat
deriving DecidableEq, Repr

/-- A rational bounds record for the `bounds` option of `Render.create`. -/
structure RBounds where
  minX : Rat
  minY : Rat
  maxX : Rat
  maxY : Rat
deriving DecidableEq, Repr

/-- The construction inputs of `Render.create` that its error behaviour
depends on.  A missing field is `undefined`. -/
structure CreateOptions where
  engine : Option Engine
  layer : Option Layer
  bounds : Option RBounds
deriving DecidableEq, Repr

/-- A thrown JavaScript error. -/
inductive JSError where
  | typeError (msg : String)
deriving DecidableEq, Repr

/-- The created renderer state relevant to the claims. -/
structure RenderHandle where
  engine : Option Engine
  layer : Layer
  canvas : Canvas
  hasBounds : Bool
  bounds : RBounds
deriving DecidableEq, Repr

/-- `Render.create` (render.js lines 37-88).  Line 47 reads
`!!options.bounds`, line 72 stores `options.engine` without any check, and
line 73 reads `options.layer.canvas` — the only access that can throw when
a mandatory input is missing.  Line 77 defaults the bounds to the canvas
rectangle. -/
def Render.create (opts : CreateOptions) : Except JSError RenderHandle :=
  let hasBounds := opts.bounds.isSome
  match opts.layer with
  | none => .error (.typeError ("cannot read canvas of undefined layer"))
  | some layer =>
    .ok { engine := opts.engine
          layer := layer
          canvas := layer.canvas
          hasBounds := hasBounds
          bounds := opts.bounds.getD
            ⟨0, 0, layer.canvas.width, layer.canvas.height⟩ }

/-- The first statements of `Render.world` (render.js lines 239-240):
`const engine = render.engine, world = engine.world` — a renderer created
without an engine faults here, on the first frame. -/
def Render.worldEngine (r : RenderHandle) : Except JSError Engine :=
  match r.engine with
  | none => .error (.typeError ("cannot read world of undefined engine"))
  | some e => .ok e

/-- Whether an `Except` result is a success. -/
def exceptOk {α β : Type} : Except α β → Bool
  | .ok _ => true
  | .error _ => false

/-- The pose a render step wrote to the cached node, when the step
succeeded and left a node. -/
def poseOf (o : Option (BodyPart × List SNode × Nat)) :
    Option ((Rat × Rat) × Rat) :=
  o.bind fun r => r.1.spriteNode.map fun s => (s.pos, s.rotate)

/-- The nodes a render step appended to the layer. -/
def appendedOf (o : Option (BodyPart × List SNode × Nat)) :
    Option (List SNode) :=
  o.map fun r => r.2.1

/-- The next fresh node id after a render step. -/
def freshAfter (o : Option (BodyPart × List SNode × Nat)) : Option Nat :=
  o.map fun r => r.2.2

/-- The cached node a render step left on the part. -/
def nodeOf (o : Option (BodyPart × List SNode × Nat)) : Option SNode :=
  o.bind fun r => r.1.spriteNode

def nodeW : SNode :=
  { id := 3, shape := .path [(0, 0), (10, 0), (0, 10)] ("tomato"),
    pos := (0, 0), rotate := 0, opacity := 1, appliedAttrs := none }

def partW : BodyPart :=
  { position := (1234 / 100, 5678 / 100), angleC := 1 / 4,
    render := { visible := true, sprite := none, fillStyle := "tomato" },
    circleRadius := none,
    vertices := [⟨0, 0, false⟩, ⟨10, 0, false⟩, ⟨0, 10, false⟩],
    spriteNode := some nodeW, fullOpacity := none }

/-- The concrete layer used by the construction witnesses. -/
def layer800 : Layer := ⟨⟨800, 600⟩⟩

/-- The loop invariant: exactly one callback is registered while
`render.extraDraw` is set, none otherwise. -/
def loopInv (st : LoopState) : Prop :=
  st.registered = if st.pending then 1 else 0

/-- The first object of the C3 scenario: `{min: (0,0), max: (10,10)}`. -/
def lookObjA : LookObj :=
  { bounds := none, min := some ⟨some (.fin 0), some (.fin 0)⟩,
    max := some ⟨some (.fin 10), some (.fin 10)⟩, position := none,
    x := none, y := none }

/-- The second object of the C3 scenario: `{min: (90,90), max: (100,100)}`. -/
def lookObjB : LookObj :=
  { bounds := none, min := some ⟨some (.fin 90), some (.fin 90)⟩,
    max := some ⟨some (.fin 100), some (.fin 100)⟩, position := none,
    x := none, y := none }

/-- A renderer over an 800 by 600 canvas. -/
def render800 : LookRender :=
  { canvasW := 800, canvasH := 600, boundsMinX := .fin 0, boundsMinY := .fin 0,
    boundsMaxX := .fin 800, boundsMaxY := .fin 600, hasBounds := false }

/-- The bounds `Render.lookAt` produces in the C3 scenario. -/
def lookAtC3 : LookRender :=
  Render.lookAt render800 [lookObjA, lookObjB] (.fin 0) (.fin 0) true

/-- An object exposing none of the fields `Render.lookAt` probes: no
`bounds`, `min`/`max`, `position`, and no `x`/`y` of its own. -/
def blankObj : LookObj := ⟨none, none, none, none, none, none⟩

theorem EFloat.lt_nan (x : EFloat) : lt x nan = false := by cases x <;> rfl

theorem EFloat.add_nan (x : EFloat) : add x nan = nan := by cases x <;> rfl

theorem EFloat.nan_add (x : EFloat) : add nan x = nan := by cases x <;> rfl

theorem EFloat.mul_nan (x : EFloat) : mul x nan = nan := by cases x <;> rfl

theorem EFloat.nan_mul (x : EFloat) : mul nan x = nan := by cases x <;> rfl

theorem EFloat.div_nan (x : EFloat) : div x nan = nan := by cases x <;> rfl

theorem EFloat.sub_nan (x : EFloat) : sub x nan = nan := by cases x <;> rfl

theorem EFloat.nan_sub (x : EFloat) : sub nan x = nan := by cases x <;> rfl

theorem EFloat.mul_fin (a b : Rat) :
    EFloat.mul (.fin a) (.fin b) = .fin (a * b) := rfl

theorem EFloat.sub_ninf_inf : EFloat.sub .ninf .inf = .ninf := rfl

theorem EFloat.sub_ninf_ninf : EFloat.sub .ninf .ninf = .nan := rfl

theorem EFloat.add_ninf_fin (q : Rat) :
    EFloat.add .ninf (.fin q) = .ninf := rfl

theorem EFloat.add_inf_ninf : EFloat.add .inf .ninf = .nan := rfl

theorem EFloat.div_ninf_ninf : EFloat.div .ninf .ninf = .nan := rfl

theorem EFloat.nan_ge (x : EFloat) : EFloat.ge .nan x = false := by cases x <;> rfl

theorem EFloat.nonFinite_nan : EFloat.nonFinite .nan = true := rfl

theorem EFloat.mul_ninf_fin_one : EFloat.mul .ninf (.fin 1) = .ninf := by
  simp [EFloat.mul]

theorem EFloat.mul_ninf_fin_half :
    EFloat.mul .ninf (.fin (1 / 2)) = .ninf := by
  norm_num [EFloat.mul]

theorem sleepingUpdate_pos (a b : Bool) (fo : Option Rat) (s : SNode) :
    (sleepingUpdate a b fo s).2.pos = s.pos := by
  unfold sleepingUpdate; split <;> split <;> rfl

theorem sleepingUpdate_rotate (a b : Bool) (fo : Option Rat) (s : SNode) :
    (sleepingUpdate a b fo s).2.rotate = s.rotate := by
  unfold sleepingUpdate; split <;> split <;> rfl

theorem sleepingUpdate_id (a b : Bool) (fo : Option Rat) (s : SNode) :
    (sleepingUpdate a b fo s).2.id = s.id := by
  unfold sleepingUpdate; split <;> split <;> rfl

theorem sleepingUpdate_shape (a b : Bool) (fo : Option Rat) (s : SNode) :
    (sleepingUpdate a b fo s).2.shape = s.shape := by
  unfold sleepingUpdate; split <;> split <;> rfl

theorem applyRenderAttrs_pos (r : PartRender) (s : SNode) :
    (applyRenderAttrs r s).pos = s.pos := by
  unfold applyRenderAttrs; split <;> first | rfl | (split <;> rfl)

theorem applyRenderAttrs_rotate (r : PartRender) (s : SNode) :
    (applyRenderAttrs r s).rotate = s.rotate := by
  unfold applyRenderAttrs; split <;> first | rfl | (split <;> rfl)

theorem applyRenderAttrs_id (r : PartRender) (s : SNode) :
    (applyRenderAttrs r s).id = s.id := by
  unfold applyRenderAttrs; split <;> first | rfl | (split <;> rfl)

theorem applyRenderAttrs_shape (r : PartRender) (s : SNode) :
    (applyRenderAttrs r s).shape = s.shape := by
  unfold applyRenderAttrs; split <;> first | rfl | (split <;> rfl)

theorem applyRenderAttrs_opacity (r : PartRender) (s : SNode) :
    (applyRenderAttrs r s).opacity = s.opacity := by
  unfold applyRenderAttrs; split <;> first | rfl | (split <;> rfl)

theorem bodiesPart_pose (sS iS : Bool) (part : BodyPart) (fresh : Nat)
    (hv : part.render.visible = true) :
    Render.bodiesPart sS iS part fresh = none ∨
      poseOf (Render.bodiesPart sS iS part fresh) =
        some ((quant1 part.position.1, quant1 part.position.2),
              rotQuant part.angleC) := by
  cases hn : part.spriteNode with
  | some s0 =>
    right
    simp [Render.bodiesPart, hv, hn, poseOf, sleepingUpdate_pos,
      sleepingUpdate_rotate, applyRenderAttrs_pos, applyRenderAttrs_rotate]
  | none =>
    simp only [Render.bodiesPart, hv, hn, Bool.not_true, Bool.false_eq_true,
      if_false]
    split
    case h_1 => left; rfl
    case h_2 s1 heq =>
      right
      have hp : s1.pos = (quant1 part.position.1, quant1 part.position.2) ∧
          s1.rotate = rotQuant part.angleC := by
        split at heq
        · split at heq
          · exact ⟨by cases heq; rfl, by cases heq; rfl⟩
          · cases heq
        · split at heq
          · exact ⟨by cases heq; rfl, by cases heq; rfl⟩
          · split at heq
            · cases heq
            · exact ⟨by cases heq; rfl, by cases heq; rfl⟩
      simp [poseOf, sleepingUpdate_pos, sleepingUpdate_rotate,
        applyRenderAttrs_pos, applyRenderAttrs_rotate, hp.1, hp.2]

theorem bodyWireframesPart_pose (sIE sS iS : Bool) (part : BodyPart)
    (fresh : Nat) :
    Render.bodyWireframesPart sIE sS iS part fresh = none ∨
      poseOf (Render.bodyWireframesPart sIE sS iS part fresh) =
        some ((quant1 part.position.1, quant1 part.position.2),
              rotQuant part.angleC) := by
  cases hn : part.spriteNode with
  | some s0 =>
    right
    simp [Render.bodyWireframesPart, hn, poseOf, sleepingUpdate_pos,
      sleepingUpdate_rotate]
  | none =>
    cases hvs : part.vertices with
    | nil =>
      left
      simp [Render.bodyWireframesPart, hn, hvs]
    | cons v0 vs =>
      right
      simp [Render.bodyWireframesPart, hn, hvs, poseOf, sleepingUpdate_pos,
        sleepingUpdate_rotate]

/-- **C4**: every rendered part gets a quantized pose: each position
coordinate is `Math.round(x * 10) / 10` and the rotation is the angle in
degrees rounded the same way; at position `(12.34, 56.78)` and angle
`pi / 4` the pose is `(12.3, 56.8)` with rotation `45.0`. -/
theorem claim_pose_quantization (sS iS sIE : Bool) (part : BodyPart)
    (fresh : Nat) :
    (part.render.visible = true →
      (Render.bodiesPart sS iS part fresh).isSome = true →
      poseOf (Render.bodiesPart sS iS part fresh) =
        some ((quant1 part.position.1, quant1 part.position.2),
              rotQuant part.angleC)) ∧
    ((Render.bodyWireframesPart sIE sS iS part fresh).isSome = true →
      poseOf (Render.bodyWireframesPart sIE sS iS part fresh) =
        some ((quant1 part.position.1, quant1 part.position.2),
              rotQuant part.angleC)) ∧
    quant1 (1234 / 100) = 123 / 10 ∧ quant1 (5678 / 100) = 284 / 5 ∧
    rotQuant (1 / 4) = 45 := by
  refine ⟨fun hv hs => ?_, fun hs => ?_,
    by norm_num [quant1, round_eq, Int.floor_eq_iff],
    by norm_num [quant1, round_eq, Int.floor_eq_iff],
    by norm_num [rotQuant, round_eq, Int.floor_eq_iff]⟩
  · rcases bodiesPart_pose sS iS part fresh hv with h | h
    · rw [h] at hs; cases hs
    · exact h
  · rcases bodyWireframesPart_pose sIE sS iS part fresh with h | h
    · rw [h] at hs; cases hs
    · exact h

/-- Witness for C4 at the concrete pose of the claim. -/
theorem claim_pose_quantization_witness :
    poseOf (Render.bodiesPart false false partW 0) =
      some ((123 / 10, 284 / 5), 45) ∧
    poseOf (Render.bodyWireframesPart false false false partW 0) =
      some ((123 / 10, 284 / 5), 45) := by
  have h := claim_pose_quantization false false false partW 0
  refine ⟨(h.1 (by decide) (by decide)).trans ?_, (h.2.1 (by decide)).trans ?_⟩
  · norm_num [partW, quant1, rotQuant, round_eq, Int.floor_eq_iff]
  · norm_num [partW, quant1, rotQuant, round_eq, Int.floor_eq_iff]

/-- **C1**: a part that already has a cached node keeps it: both
`Render.bodies` and `Render.bodyWireframes` append nothing to the layer,
allocate no node id, preserve the cached node's identity and geometry, and
write only the quantized `pos`/`rotate` attributes (exactly those, when no
sprite attrs and no sleeping fade apply); a node is created only when the
cache is empty. -/
theorem claim_cached_node_reuse (sS iS sIE : Bool) (part : BodyPart)
    (fresh : Nat) (s0 : SNode) (hc : part.spriteNode = some s0) :
    appendedOf (Render.bodiesPart sS iS part fresh) = some [] ∧
    freshAfter (Render.bodiesPart sS iS part fresh) = some fresh ∧
    (nodeOf (Render.bodiesPart sS iS part fresh)).map SNode.id = some s0.id ∧
    (nodeOf (Render.bodiesPart sS iS part fresh)).map SNode.shape =
      some s0.shape ∧
    appendedOf (Render.bodyWireframesPart sIE sS iS part fresh) = some [] ∧
    freshAfter (Render.bodyWireframesPart sIE sS iS part fresh) = some fresh ∧
    (nodeOf (Render.bodyWireframesPart sIE sS iS part fresh)).map SNode.id =
      some s0.id ∧
    (nodeOf (Render.bodyWireframesPart sIE sS iS part fresh)).map SNode.shape =
      some s0.shape ∧
    (part.render.visible = true → part.render.sprite = none → sS = false →
      part.fullOpacity = none →
      nodeOf (Render.bodiesPart sS iS part fresh) =
        some { s0 with
               pos := (quant1 part.position.1, quant1 part.position.2)
               rotate := rotQuant part.angleC }) ∧
    (sS = false → part.fullOpacity = none →
      nodeOf (Render.bodyWireframesPart sIE sS iS part fresh) =
        some { s0 with
               pos := (quant1 part.position.1, quant1 part.position.2)
               rotate := rotQuant part.angleC }) := by
  cases hv : part.render.visible with
  | false =>
    refine ⟨?_, ?_, ?_, ?_, ?_, ?_, ?_, ?_, ?_, ?_⟩ <;>
      simp [Render.bodiesPart, Render.bodyWireframesPart, hv, hc, appendedOf,
        freshAfter, nodeOf, sleepingUpdate_id, sleepingUpdate_shape]
    all_goals intros
    all_goals simp_all [sleepingUpdate, jsTruthyNum, applyRenderAttrs]
  | true =>
    refine ⟨?_, ?_, ?_, ?_, ?_, ?_, ?_, ?_, ?_, ?_⟩ <;>
      simp [Render.bodiesPart, Render.bodyWireframesPart, hv, hc, appendedOf,
        freshAfter, nodeOf, sleepingUpdate_id, sleepingUpdate_shape,
        applyRenderAttrs_id, applyRenderAttrs_shape]
    all_goals intros
    all_goals simp_all [sleepingUpdate, jsTruthyNum, applyRenderAttrs]

/-- Witness for C1 at a concrete cached part. -/
theorem claim_cached_node_reuse_witness :
    appendedOf (Render.bodiesPart false false partW 5) = some [] ∧
    freshAfter (Render.bodiesPart false false partW 5) = some 5 ∧
    (nodeOf (Render.bodiesPart false false partW 5)).map SNode.id =
      some nodeW.id ∧
    appendedOf (Render.bodyWireframesPart false false false partW 5) =
      some [] ∧
    nodeOf (Render.bodiesPart false false partW 5) =
      some { nodeW with
             pos := (quant1 partW.position.1, quant1 partW.position.2)
             rotate := rotQuant partW.angleC } := by
  have h := claim_cached_node_reuse false false false partW 5 nodeW rfl
  exact ⟨h.1, h.2.1, h.2.2.1, h.2.2.2.2.1, h.2.2.2.2.2.2.2.2.1 rfl rfl rfl rfl⟩

/-- **C5**: the sleeping fade of `Render.bodies` is idempotent and exactly
reversible: with show-sleeping on and the body asleep, a part with no
remembered opacity gets its opacity halved once and the prior value stored
in `fullOpacity`; a second asleep update changes nothing, and an awake
update restores exactly the pre-fade opacity. -/
theorem claim_sleeping_fade_idempotent (fo : Option Rat) (s : SNode) :
    sleepingUpdate true true (sleepingUpdate true true fo s).1
        (sleepingUpdate true true fo s).2 = sleepingUpdate true true fo s ∧
    (sleepingUpdate true true (none : Option Rat) s).1 = some s.opacity ∧
    (sleepingUpdate true true (none : Option Rat) s).2.opacity =
      1 / 2 * s.opacity ∧
    (sleepingUpdate true false
        (sleepingUpdate true true (none : Option Rat) s).1
        (sleepingUpdate true true (none : Option Rat) s).2).2.opacity =
      s.opacity := by
  refine ⟨?_, ?_, ?_, ?_⟩
  · rcases fo with _ | q
    · by_cases h0 : s.opacity = 0 <;> simp [sleepingUpdate, jsTruthyNum, h0]
    · by_cases hq : q = 0
      · subst hq
        by_cases h0 : s.opacity = 0 <;> simp [sleepingUpdate, jsTruthyNum, h0]
      · simp [sleepingUpdate, jsTruthyNum, hq]
  · simp [sleepingUpdate, jsTruthyNum]
  · simp [sleepingUpdate, jsTruthyNum]
  · by_cases h0 : s.opacity = 0 <;> simp [sleepingUpdate, jsTruthyNum, h0]

theorem springCoils_ge (len : Rat) : 12 ≤ springCoils len := by
  have h : (12 : Rat) ≤ Common.clamp (len / 5) 12 20 := by
    unfold Common.clamp
    split
    · exact le_refl _
    · split
      · norm_num
      · next h1 _ => exact le_of_not_lt h1
  have h2 : ⌈(12 : Rat)⌉ = 12 := by norm_num [Int.ceil_eq_iff]
  calc (12 : ℤ) = ⌈(12 : Rat)⌉ := h2.symm
    _ ≤ springCoils len := Int.ceil_mono h

/-- **C6**: the spring branch of `Render.constraints` draws
`ceil(clamp(length / 5, 12, 20))` segments, the coil offsets alternate in
sign from one coil to the next, and the counts at lengths `40` and `200`
are `12` and `20`. -/
theorem claim_spring_coil_count (len : Rat) (sp ep n : Rat × Rat) (j : Nat) :
    (springLineTos sp ep n len).length = (springCoils len).toNat ∧
    springOffset (j + 1) = -springOffset j ∧
    springCoils 40 = 12 ∧ springCoils 200 = 20 := by
  refine ⟨?_, ?_, ?_, ?_⟩
  · have h12 := springCoils_ge len
    simp only [springLineTos, List.length_append, List.length_map,
      List.length_range', List.length_cons, List.length_nil]
    omega
  · unfold springOffset
    rcases Nat.mod_two_eq_zero_or_one j with h | h <;> simp [h, Nat.add_mod]
  · norm_num [springCoils, Common.clamp, Int.ceil_eq_iff]
  · norm_num [springCoils, Common.clamp, Int.ceil_eq_iff]

/-- **C7** counterexample: a visible constraint whose `pointA` is defined
but whose `pointB` is undefined is skipped by the code (line 433 tests
`!pointA || !pointB`), while the claim predicts it is drawn because only
constraints with both anchors undefined should be skipped. -/
theorem claim_constraint_skip_counterexample :
    Render.constraintsSkips true (some ((0 : Rat), (0 : Rat))) none = true ∧
    ((true = false ∨ ((some ((0 : Rat), (0 : Rat))).isNone = true ∧
        (none : Option (Rat × Rat)).isNone = true)) ↔ False) := by
  exact ⟨rfl, by simp⟩

/-- **C7 amended**: `Render.constraints` skips a constraint exactly when
its render-visibility flag is false or at least one of its two anchor
points is undefined. -/
theorem claim_constraint_skip_amended (visible : Bool)
    (pointA pointB : Option (Rat × Rat)) :
    Render.constraintsSkips visible pointA pointB = true ↔
      visible = false ∨ pointA = none ∨ pointB = none := by
  unfold Render.constraintsSkips
  cases visible <;> cases pointA <;> cases pointB <;> simp

/-- **C9** counterexample: `Render.create` succeeds when the engine (the
mandatory world reference of the claim) is missing — line 72 stores
`options.engine` without any check, so no configuration error is raised at
creation time. -/
theorem claim_create_counterexample :
    exceptOk (Render.create
      { engine := none, layer := some layer800, bounds := none }) = true := rfl

/-- **C9 amended**: `Render.create` throws exactly when the drawing target
(layer) is missing; a missing engine is stored as undefined and only
faults later, when `Render.world` reads `engine.world` on the first
frame. -/
theorem claim_create_fail_fast_amended (opts : CreateOptions)
    (r : RenderHandle) :
    exceptOk (Render.create opts) = opts.layer.isSome ∧
    exceptOk (Render.worldEngine r) = r.engine.isSome := by
  constructor
  · cases hl : opts.layer <;> simp [Render.create, exceptOk, hl]
  · cases he : r.engine <;> simp [Render.worldEngine, exceptOk, he]

/-- **C8** counterexample: with two overlays enabled and the first one
throwing, the second overlay does not run, the view transform is not
reverted, the callback neither deregisters itself nor clears
`render.extraDraw`, and `afterRender` is not emitted — the claim predicts
the pass completes with the faulting overlay skipped. -/
theorem claim_overlay_isolation_counterexample :
    Render.extraDrawPass true [.fault, .ok] =
      { overlaysCompleted := 0, reverted := false, deregistered := false,
        afterRender := false } := rfl

/-- **C8 amended**: the deferred overlay callback has no exception
handling, so a fault in one overlay aborts the whole rest of the pass:
`afterRender` is emitted, the callback deregistered, and the view
transform reverted (when bounds are active) exactly when every overlay
completes, and the overlays completed are precisely the prefix before the
first fault.  The main pass is unaffected, having already run before the
callback. -/
theorem claim_overlay_fault_aborts_pass (hb : Bool) (l : List OverlayRun) :
    (Render.extraDrawPass hb l).afterRender = l.all (fun o => o == .ok) ∧
    (Render.extraDrawPass hb l).deregistered = l.all (fun o => o == .ok) ∧
    (Render.extraDrawPass hb l).reverted =
      (hb && l.all (fun o => o == .ok)) ∧
    (Render.extraDrawPass hb l).overlaysCompleted =
      (l.takeWhile (fun o => o == .ok)).length := by
  induction l with
  | nil => simp [Render.extraDrawPass]
  | cons o rest ih =>
    cases o with
    | ok =>
      simp [Render.extraDrawPass, ih.1, ih.2.1, ih.2.2.1, ih.2.2.2,
        List.takeWhile_cons]
    | fault => simp [Render.extraDrawPass, List.takeWhile_cons]

theorem runLoop_inv (ops : List LoopOp) (st : LoopState) (h : loopInv st) :
    loopInv (runLoop st ops) := by
  induction ops generalizing st with
  | nil => exact h
  | cons op rest ih =>
    cases op with
    | frame =>
      apply ih
      unfold loopInv Render.worldSchedule at *
      split_ifs at h ⊢ <;> simp_all
    | update =>
      apply ih
      unfold loopInv layerUpdateFire at *
      split_ifs at h ⊢ <;> simp_all

/-- **C2**: at most one deferred overlay callback is ever pending: a run
from the initial state keeps at most one callback registered, a frame that
finds `render.extraDraw` set schedules nothing new, a firing callback
deregisters itself and clears `render.extraDraw` before `afterRender` (the
trace lists its actions in execution order), and a fired callback cannot
fire again. -/
theorem claim_single_overlay_callback (ops : List LoopOp) (st : LoopState) :
    (runLoop loopStart ops).registered =
      (if (runLoop loopStart ops).pending then 1 else 0) ∧
    (runLoop loopStart ops).registered ≤ 1 ∧
    (st.pending = true →
      Render.worldSchedule st = (st, [.beforeRender])) ∧
    (st.pending = true →
      layerUpdateFire st =
        ({ pending := false, registered := st.registered - 1 },
         [.offUpdate, .clearExtraDraw, .afterRender])) ∧
    (st.pending = true →
      layerUpdateFire (layerUpdateFire st).1 = ((layerUpdateFire st).1, [])) := by
  have hinv : loopInv (runLoop loopStart ops) :=
    runLoop_inv ops loopStart (by simp [loopInv, loopStart])
  refine ⟨hinv, ?_, ?_, ?_, ?_⟩
  · rw [hinv]; split <;> simp
  · intro hp; simp [Render.worldSchedule, hp]
  · intro hp; simp [layerUpdateFire, hp]
  · intro hp; simp [layerUpdateFire, hp]

/-- Witness for C2 at two consecutive frames with no update signal in
between, and at a pending state. -/
theorem claim_single_overlay_callback_witness :
    (runLoop loopStart [.frame, .frame]).registered ≤ 1 ∧
    Render.worldSchedule ⟨true, 1⟩ = (⟨true, 1⟩, [.beforeRender]) ∧
    layerUpdateFire ⟨true, 1⟩ =
      (⟨false, 0⟩, [.offUpdate, .clearExtraDraw, .afterRender]) ∧
    layerUpdateFire (layerUpdateFire ⟨true, 1⟩).1 =
      ((layerUpdateFire ⟨true, 1⟩).1, []) := by
  have h := claim_single_overlay_callback [.frame, .frame] ⟨true, 1⟩
  exact ⟨h.2.1, h.2.2.1 rfl, h.2.2.2.1 rfl, h.2.2.2.2 rfl⟩

/-- **C3**: fitting the 800 by 600 viewport to the two boxes
`(0,0)-(10,10)` and `(90,90)-(100,100)` with zero padding and
`center = true` yields bounds with width/height ratio `800 / 600` and
midpoint `(50, 50)`, the midpoint of the union box. -/
theorem claim_lookAt_two_boxes :
    EFloat.div (EFloat.sub lookAtC3.boundsMaxX lookAtC3.boundsMinX)
        (EFloat.sub lookAtC3.boundsMaxY lookAtC3.boundsMinY) =
      .fin (800 / 600) ∧
    EFloat.div (EFloat.add lookAtC3.boundsMinX lookAtC3.boundsMaxX)
        (.fin 2) = .fin 50 ∧
    EFloat.div (EFloat.add lookAtC3.boundsMinY lookAtC3.boundsMaxY)
        (.fin 2) = .fin 50 := by
  norm_num [lookAtC3, Render.lookAt, lookAtCore, accObj, resolveMin,
    resolveMax, updMin, updMax, lookAtInit, render800, lookObjA, lookObjB,
    EFloat.add, EFloat.sub, EFloat.neg, EFloat.mul, EFloat.div, EFloat.lt]

theorem foldl_accObj_blank (objs : List LookObj)
    (h : ∀ o ∈ objs, o = blankObj) (b : UBounds) :
    objs.foldl accObj b = b := by
  induction objs generalizing b with
  | nil => rfl
  | cons o rest ih =>
    have ho : o = blankObj := h o (List.mem_cons_self o rest)
    have hrest : ∀ o ∈ rest, o = blankObj := fun o hm =>
      h o (List.mem_cons_of_mem _ hm)
    rw [List.foldl_cons, ho]
    rw [show accObj b blankObj = b by
      simp [accObj, blankObj, resolveMin, resolveMax, updMin, updMax]]
    exact ih hrest b

/-- **C10**: `Render.lookAt` on an empty list, or on objects exposing no
usable fields, still sets `hasBounds` and fills `render.bounds` with
non-finite values (here NaN), after which the `ViewBounds` invariant
`max >= min` fails on both axes. -/
theorem claim_lookAt_degenerate (r : LookRender) (objs : List LookObj)
    (px py : Rat) (h : ∀ o ∈ objs, o = blankObj) :
    (Render.lookAt r objs (.fin px) (.fin py) true).hasBounds = true ∧
    EFloat.nonFinite
      (Render.lookAt r objs (.fin px) (.fin py) true).boundsMinX = true ∧
    EFloat.nonFinite
      (Render.lookAt r objs (.fin px) (.fin py) true).boundsMinY = true ∧
    EFloat.nonFinite
      (Render.lookAt r objs (.fin px) (.fin py) true).boundsMaxX = true ∧
    EFloat.nonFinite
      (Render.lookAt r objs (.fin px) (.fin py) true).boundsMaxY = true ∧
    EFloat.ge (Render.lookAt r objs (.fin px) (.fin py) true).boundsMaxX
      (Render.lookAt r objs (.fin px) (.fin py) true).boundsMinX = false ∧
    EFloat.ge (Render.lookAt r objs (.fin px) (.fin py) true).boundsMaxY
      (Render.lookAt r objs (.fin px) (.fin py) true).boundsMinY = false := by
  unfold Render.lookAt
  rw [foldl_accObj_blank objs h lookAtInit]
  unfold lookAtCore lookAtInit
  simp only [EFloat.mul_fin, EFloat.sub_ninf_inf, EFloat.sub_ninf_ninf,
    EFloat.add_ninf_fin, EFloat.add_inf_ninf, EFloat.div_ninf_ninf,
    EFloat.lt_nan, EFloat.div_nan, EFloat.mul_nan, EFloat.nan_mul,
    EFloat.add_nan, EFloat.nan_add, EFloat.sub_nan, EFloat.nan_sub,
    EFloat.mul_ninf_fin_one, EFloat.mul_ninf_fin_half,
    Bool.false_eq_true, if_false]
  simp [EFloat.nan_sub, EFloat.nan_ge, EFloat.nonFinite_nan]

/-- Witness for C10 at one blank object on the 800 by 600 renderer. -/
theorem claim_lookAt_degenerate_witness :
    (Render.lookAt render800 [blankObj] (.fin 0) (.fin 0) true).hasBounds =
      true ∧
    EFloat.nonFinite
      (Render.lookAt render800 [blankObj] (.fin 0) (.fin 0) true).boundsMinX =
      true ∧
    EFloat.nonFinite
      (Render.lookAt render800 [blankObj] (.fin 0) (.fin 0) true).boundsMinY =
      true ∧
    EFloat.nonFinite
      (Render.lookAt render800 [blankObj] (.fin 0) (.fin 0) true).boundsMaxX =
      true ∧
    EFloat.nonFinite
      (Render.lookAt render800 [blankObj] (.fin 0) (.fin 0) true).boundsMaxY =
      true ∧
    EFloat.ge
      (Render.lookAt render800 [blankObj] (.fin 0) (.fin 0) true).boundsMaxX
      (Render.lookAt render800 [blankObj] (.fin 0) (.fin 0) true).boundsMinX =
      false ∧
    EFloat.ge
      (Render.lookAt render800 [blankObj] (.fin 0) (.fin 0) true).boundsMaxY
      (Render.lookAt render800 [blankObj] (.fin 0) (.fin 0) true).boundsMinY =
      false := by
  exact claim_lookAt_degenerate render800 [blankObj] 0 0 (by simp)
